import Mathlib

/-
Verification of the express-jobly backend core: a shallow embedding of
the SQL-fragment builders (helpers/sql.js `sqlForPartialUpdate`,
`Company._makeWhereClause`, `Job._makeWhereClause`) and of the
authorization middleware (middleware/auth.js `ensureLoggedIn`,
`ensureAdmin`, `ensureUserOrAdmin`), with theorems settling the spec
claims about them.

JavaScript conventions modelled explicitly:
  - dynamic values are `JSVal`; truthiness follows JS (empty string and
    0 are falsy);
  - an optional field is `Option _`; reading a property of an absent
    object (`undefined`) raises a TypeError, modelled as a distinct
    error constructor;
  - a JS object used as a record of key/value pairs is a `List` of
    pairs in insertion order (`Object.keys` / `Object.values` order).
-/

/-- Dynamic JavaScript values as they reach the core functions. -/
inductive JSVal where
  | str (s : String)
  | num (n : Int)
  | bool (b : Bool)
  | null
deriving Repr, DecidableEq, Inhabited

/-- JavaScript truthiness of a `JSVal`. -/
def JSVal.truthy : JSVal → Bool
  | .str s => s ≠ ""
  | .num n => n ≠ 0
  | .bool b => b
  | .null => false

/-- Truthiness of an optional string field (absent or empty string is falsy). -/
def strTruthy : Option String → Bool
  | none => false
  | some s => s ≠ ""

/-- Truthiness of an optional numeric field (absent or 0 is falsy). -/
def numTruthy : Option Int → Bool
  | none => false
  | some n => n ≠ 0

/-! ## helpers/sql.js : sqlForPartialUpdate -/

/-- JS object property lookup `t[k]` on a string-keyed record. -/
def jsGet (t : List (String × String)) (k : String) : Option String :=
  match t with
  | [] => none
  | (k2, v) :: rest => if k2 = k then some v else jsGet rest k

/-- The column-name expression `jsToSql[colName] || colName`:
falls back to the logical name when the lookup misses or is falsy. -/
def colFor (jsToSql : List (String × String)) (colName : String) : String :=
  match jsGet jsToSql colName with
  | some v => if v = "" then colName else v
  | none => colName

/-- The mapped clause list
`keys.map((colName, idx) => "<col>"=$<idx+1>)` of `sqlForPartialUpdate`. -/
def setClauses (keys : List String) (jsToSql : List (String × String)) : List String :=
  keys.enum.map (fun p => "\"" ++ colFor jsToSql p.2 ++ "\"=$" ++ toString (p.1 + 1))

/-- helpers/sql.js `sqlForPartialUpdate(dataToUpdate, jsToSql)`:
throws BadRequestError "No data" on an empty map, otherwise returns
`setCols` (comma-joined clauses) and the value list. -/
def sqlForPartialUpdate (dataToUpdate : List (String × JSVal))
    (jsToSql : List (String × String)) : Except String (String × List JSVal) :=
  let keys := dataToUpdate.map Prod.fst
  if keys.length = 0 then Except.error "No data"
  else
    Except.ok (String.intercalate ", " (setClauses keys jsToSql),
      dataToUpdate.map Prod.snd)

/-! ## middleware/auth.js -/

/-- The JWT payload stored on `res.locals.user`: a username and an
`isAdmin` field that is dynamically typed. -/
structure Identity where
  username : String
  isAdmin : JSVal
deriving Repr, DecidableEq

/-- The error a middleware forwards to `next(err)` on a denied request:
either the explicitly thrown UnauthorizedError, or the TypeError raised
by reading a property of `undefined` when no identity is present. -/
inductive AuthError where
  | unauthorized
  | typeError
deriving Repr, DecidableEq

/-- Outcome of an auth middleware: proceed (`next()`) or fail (`next(err)`). -/
inductive AuthResult where
  | allow
  | deny (e : AuthError)
deriving Repr, DecidableEq

/-- middleware/auth.js `ensureLoggedIn`: `if (!res.locals.user) throw new
UnauthorizedError()`. -/
def ensureLoggedIn (user : Option Identity) : AuthResult :=
  match user with
  | none => .deny .unauthorized
  | some _ => .allow

/-- middleware/auth.js `ensureAdmin`:
`if (!res.locals.user.isAdmin === true) throw new UnauthorizedError()`.
By JS precedence this is `(!isAdmin) === true`, i.e. a truthiness test;
with no identity, reading `.isAdmin` of `undefined` is a TypeError that
the catch block forwards to `next(err)`. -/
def ensureAdmin (user : Option Identity) : AuthResult :=
  match user with
  | none => .deny .typeError
  | some u => if (!u.isAdmin.truthy) = true then .deny .unauthorized else .allow

/-- middleware/auth.js `ensureUserOrAdmin(req, res, next)`: branches on the
truthiness of `req.body.password`; in the password branch allows only a
username match, otherwise allows a username match or `isAdmin === true`.
Reading `.username` of an absent `res.locals.user` is a TypeError. -/
def ensureUserOrAdmin (user : Option Identity) (paramsUsername : String)
    (bodyPassword : Option String) : AuthResult :=
  if strTruthy bodyPassword then
    match user with
    | none => .deny .typeError
    | some u =>
        if !(u.username = paramsUsername) then .deny .unauthorized else .allow
  else
    match user with
    | none => .deny .typeError
    | some u =>
        if !(u.username = paramsUsername ∨ u.isAdmin = JSVal.bool true)
        then .deny .unauthorized else .allow

/-! ## models/company.js : Company._makeWhereClause -/

/-- The recognized company search terms (`name`, `minEmployees`,
`maxEmployees`), each possibly absent. -/
structure CompanyFilter where
  name : Option String
  minEmployees : Option Int
  maxEmployees : Option Int
deriving Repr, DecidableEq

/-- models/company.js `Company._makeWhereClause(searchTerms)`, first two
pushes: a clause and a value for each truthy term in order (name, then
minEmployees), numbering placeholders with the running `indexPointer`.
The accumulator triple is (clauses, values, indexPointer). -/
def Company_whereAcc (st : CompanyFilter) : List String × List JSVal × Nat :=
  let acc1 : List String × List JSVal × Nat :=
    if strTruthy st.name then
      (["name ILIKE $" ++ toString (0 + 1)],
       [JSVal.str ("%" ++ st.name.getD "" ++ "%")], 0 + 1)
    else ([], [], 0)
  if numTruthy st.minEmployees then
    (acc1.1 ++ ["num_employees >= $" ++ toString (acc1.2.2 + 1)],
     acc1.2.1 ++ [JSVal.num (st.minEmployees.getD 0)], acc1.2.2 + 1)
  else acc1

/-- models/company.js `Company._makeWhereClause(searchTerms)`, maxEmployees
branch and final join: inside the truthy-maxEmployees branch,
`if (minEmployees && minEmployees > maxEmployees)` throws BadRequestError,
otherwise a `num_employees <=` clause is pushed; the clauses are joined
with " AND ". -/
def Company_makeWhereClause (st : CompanyFilter) :
    Except String (String × List JSVal) :=
  let acc2 : List String × List JSVal × Nat := Company_whereAcc st
  if numTruthy st.maxEmployees then
    if numTruthy st.minEmployees &&
        decide (st.minEmployees.getD 0 > st.maxEmployees.getD 0) then
      Except.error "maxEmployees must be higher than minEmployees"
    else
      Except.ok
        (String.intercalate " AND "
          (acc2.1 ++ ["num_employees <= $" ++ toString (acc2.2.2 + 1)]),
         acc2.2.1 ++ [JSVal.num (st.maxEmployees.getD 0)])
  else
    Except.ok (String.intercalate " AND " acc2.1, acc2.2.1)

/-! ## models/job.js : Job._makeWhereClause -/

/-- The recognized job search terms (`title`, `minSalary`, `hasEquity`),
each possibly absent; `hasEquity` arrives as a query string. -/
structure JobFilter where
  title : Option String
  minSalary : Option Int
  hasEquity : Option String
deriving Repr, DecidableEq

/-- models/job.js `Job._makeWhereClause(searchTerms)`, first two pushes:
`title ILIKE $n` and `salary >= $n` for truthy terms, using
`values.length + 1` for placeholder numbers. -/
def Job_whereBase (st : JobFilter) : List String × List JSVal :=
  let acc1 : List String × List JSVal :=
    if strTruthy st.title then
      (["title ILIKE $" ++ toString (0 + 1)],
       [JSVal.str ("%" ++ st.title.getD "" ++ "%")])
    else ([], [])
  if numTruthy st.minSalary then
    (acc1.1 ++ ["salary >= $" ++ toString (acc1.2.length + 1)],
     acc1.2 ++ [JSVal.num (st.minSalary.getD 0)])
  else acc1

/-- models/job.js `Job._makeWhereClause(searchTerms)`, equity branch: if
`hasEquity === "true"`, push the non-parameterized clause `equity > 0.0`,
and otherwise push the tautology `1=1` so the WHERE clause is never
empty. -/
def Job_whereParts (st : JobFilter) : List String × List JSVal :=
  let acc2 : List String × List JSVal := Job_whereBase st
  if st.hasEquity = some "true" then (acc2.1 ++ ["equity > 0.0"], acc2.2)
  else (acc2.1 ++ ["1=1"], acc2.2)

/-- models/job.js `Job._makeWhereClause`: the clause list joined with
" AND ", paired with the value list. -/
def Job_makeWhereClause (st : JobFilter) : String × List JSVal :=
  (String.intercalate " AND " (Job_whereParts st).1, (Job_whereParts st).2)

/-! ## Claim theorems -/

/-- C1 counterexample: the claim says that whenever the request body
contains a password field, the admin override is excluded; but the code
only tests truthiness of `req.body.password`, so a present-but-empty
password field (`password: ""`) still lets an admin act on another
user's route. -/
theorem C1_counterexample :
    ensureUserOrAdmin (some ⟨"bob", JSVal.bool true⟩) "alice" (some "") =
      AuthResult.allow ∧ "bob" ≠ "alice" := by
  decide

/-- C1 (amended): for every identity, route-path username and request
body, when the body carries a truthy (non-empty) password the decision
allows exactly when the identity is present with the route-path
username; otherwise it allows exactly when the identity is present and
the username matches or `isAdmin === true`. -/
theorem C1_selfOrAdmin_decision (user : Option Identity) (path : String)
    (pw : Option String) :
    (strTruthy pw = true →
      (ensureUserOrAdmin user path pw = AuthResult.allow ↔
        ∃ u, user = some u ∧ u.username = path)) ∧
    (strTruthy pw = false →
      (ensureUserOrAdmin user path pw = AuthResult.allow ↔
        ∃ u, user = some u ∧
          (u.username = path ∨ u.isAdmin = JSVal.bool true))) := by
  constructor <;> intro hpw <;> cases user <;>
    simp [ensureUserOrAdmin, hpw]
  all_goals tauto

/-- C1 witness: a self request with a non-empty password is allowed. -/
theorem C1_witness :
    ensureUserOrAdmin (some ⟨"bob", JSVal.bool false⟩) "bob" (some "secret1") =
      AuthResult.allow ↔
      ∃ u, (some (Identity.mk "bob" (JSVal.bool false)) : Option Identity) = some u ∧
        u.username = "bob" :=
  (C1_selfOrAdmin_decision (some ⟨"bob", JSVal.bool false⟩) "bob"
    (some "secret1")).1 (by decide)

/-- C3: the claim says `ensureAdmin` allows only when `isAdmin` is exactly
the boolean `true` and that truthy non-boolean values deny; but the source
condition `!res.locals.user.isAdmin === true` parses as
`(!isAdmin) === true`, a truthiness test, so a truthy non-boolean
`isAdmin` (here the string "yes") is allowed. Falsy values do deny with
UnauthorizedError, as the claim requires. -/
theorem C3_ensureAdmin_truthiness :
    ensureAdmin (some ⟨"u1", JSVal.str "yes"⟩) = AuthResult.allow ∧
    JSVal.str "yes" ≠ JSVal.bool true ∧
    ensureAdmin (some ⟨"u1", JSVal.bool true⟩) = AuthResult.allow ∧
    ensureAdmin (some ⟨"u1", JSVal.num 0⟩) =
      AuthResult.deny AuthError.unauthorized ∧
    ensureAdmin (some ⟨"u1", JSVal.str ""⟩) =
      AuthResult.deny AuthError.unauthorized := by
  decide

/-- C4: the claim says every denial signals the distinct Unauthorized
error; but with no identity present, `ensureAdmin` and `ensureUserOrAdmin`
read a property of `undefined`, so the error forwarded to `next(err)` is
a TypeError, not UnauthorizedError (`ensureLoggedIn` alone guards the
absent case and throws UnauthorizedError). -/
theorem C4_deny_error_types :
    ensureAdmin none = AuthResult.deny AuthError.typeError ∧
    ensureUserOrAdmin none "alice" none = AuthResult.deny AuthError.typeError ∧
    ensureUserOrAdmin none "alice" (some "secret1") =
      AuthResult.deny AuthError.typeError ∧
    ensureLoggedIn none = AuthResult.deny AuthError.unauthorized ∧
    AuthError.typeError ≠ AuthError.unauthorized := by
  decide

/-- C2 counterexample: on the empty filter map, `Company._makeWhereClause`
returns an empty WHERE fragment — no tautology clause is substituted. -/
theorem C2_counterexample :
    Company_makeWhereClause ⟨none, none, none⟩ = Except.ok ("", []) := rfl

/-- C2 (amended): `Job._makeWhereClause` always returns a non-empty
fragment (a tautology `1=1` is pushed whenever `hasEquity` is not the
string "true"); `Company._makeWhereClause`, when it succeeds, returns a
non-empty fragment exactly when some recognized key is truthy, and in
particular returns the empty string on the empty map. -/
theorem C2_fragment_nonempty (jf : JobFilter) (cf : CompanyFilter)
    (frag : String) (vals : List JSVal) :
    (Job_makeWhereClause jf).1 ≠ "" ∧
    (Company_makeWhereClause cf = Except.ok (frag, vals) →
      (frag = "" ↔ strTruthy cf.name = false ∧
        numTruthy cf.minEmployees = false ∧
        numTruthy cf.maxEmployees = false)) := by
  constructor
  · cases h1 : strTruthy jf.title <;> cases h2 : numTruthy jf.minSalary <;>
      by_cases h3 : jf.hasEquity = some "true" <;>
      simp [Job_makeWhereClause, Job_whereParts, Job_whereBase, h1, h2, h3] <;>
      decide
  · intro h
    by_cases h4 : cf.minEmployees.getD 0 > cf.maxEmployees.getD 0 <;>
    cases h1 : strTruthy cf.name <;> cases h2 : numTruthy cf.minEmployees <;>
      cases h3 : numTruthy cf.maxEmployees <;>
      simp [Company_makeWhereClause, Company_whereAcc, h1, h2, h3, h4] at h ⊢ <;>
      rcases h with ⟨rfl, rfl⟩ <;> decide

/-- C2 witness: the builders evaluated on the empty job map and the empty
company map. -/
theorem C2_witness :
    (Job_makeWhereClause ⟨none, none, none⟩).1 ≠ "" ∧
    (("" : String) = "" ↔ strTruthy (none : Option String) = false ∧
      numTruthy (none : Option Int) = false ∧
      numTruthy (none : Option Int) = false) :=
  ⟨(C2_fragment_nonempty ⟨none, none, none⟩ ⟨none, none, none⟩ "" []).1,
   (C2_fragment_nonempty ⟨none, none, none⟩ ⟨none, none, none⟩ "" []).2 rfl⟩

/-- C7 counterexample: both bounds are present and inverted (50 > 0), yet
`Company._makeWhereClause` does not raise the range error, because the
check is guarded by the truthiness of both bounds and `maxEmployees: 0`
is falsy. -/
theorem C7_counterexample :
    Company_makeWhereClause ⟨none, some 50, some 0⟩ =
      Except.ok ("num_employees >= $1", [JSVal.num 50]) ∧ (50 : Int) > 0 :=
  ⟨rfl, by decide⟩

/-- C7 (amended): `Company._makeWhereClause` fails, always with the fixed
range-conflict message, exactly when both bounds are truthy (present and
nonzero) and minEmployees exceeds maxEmployees; with a falsy bound the
check is skipped. -/
theorem C7_rangeConflict_iff (cf : CompanyFilter) (e : String) :
    Company_makeWhereClause cf = Except.error e ↔
      (numTruthy cf.minEmployees = true ∧ numTruthy cf.maxEmployees = true ∧
       cf.minEmployees.getD 0 > cf.maxEmployees.getD 0 ∧
       e = "maxEmployees must be higher than minEmployees") := by
  by_cases h4 : cf.minEmployees.getD 0 > cf.maxEmployees.getD 0 <;>
  cases h1 : strTruthy cf.name <;> cases h2 : numTruthy cf.minEmployees <;>
    cases h3 : numTruthy cf.maxEmployees <;>
    simp [Company_makeWhereClause, Company_whereAcc, h1, h2, h3, h4, eq_comm]

/-- C10: a recognized key whose value is falsy (empty-string name or
title, zero numeric bound) behaves exactly like an absent key in both
builders, and with a falsy numeric bound the company range check cannot
fire. -/
theorem C10_falsy_as_absent (cf : CompanyFilter) (jf : JobFilter) :
    Company_makeWhereClause { cf with name := some "" } =
      Company_makeWhereClause { cf with name := none } ∧
    Company_makeWhereClause { cf with minEmployees := some 0 } =
      Company_makeWhereClause { cf with minEmployees := none } ∧
    Company_makeWhereClause { cf with maxEmployees := some 0 } =
      Company_makeWhereClause { cf with maxEmployees := none } ∧
    Job_makeWhereClause { jf with title := some "" } =
      Job_makeWhereClause { jf with title := none } ∧
    Job_makeWhereClause { jf with minSalary := some 0 } =
      Job_makeWhereClause { jf with minSalary := none } ∧
    ((numTruthy cf.minEmployees = false ∨ numTruthy cf.maxEmployees = false) →
      ∃ p, Company_makeWhereClause cf = Except.ok p) := by
  refine ⟨?_, ?_, ?_, ?_, ?_, ?_⟩
  · simp [Company_makeWhereClause, Company_whereAcc, strTruthy]
  · simp [Company_makeWhereClause, Company_whereAcc, numTruthy]
  · simp [Company_makeWhereClause, Company_whereAcc, numTruthy]
  · simp [Job_makeWhereClause, Job_whereParts, Job_whereBase, strTruthy]
  · simp [Job_makeWhereClause, Job_whereParts, Job_whereBase, numTruthy]
  · intro hor
    cases h3 : numTruthy cf.maxEmployees
    · exact ⟨(String.intercalate " AND " (Company_whereAcc cf).1,
        (Company_whereAcc cf).2.1), by simp [Company_makeWhereClause, h3]⟩
    · have h2 : numTruthy cf.minEmployees = false := by
        rcases hor with h | h
        · exact h
        · rw [h] at h3; exact absurd h3 (by simp)
      exact ⟨(String.intercalate " AND " ((Company_whereAcc cf).1 ++
          ["num_employees <= $" ++ toString ((Company_whereAcc cf).2.2 + 1)]),
          (Company_whereAcc cf).2.1 ++ [JSVal.num (cf.maxEmployees.getD 0)]),
        by simp [Company_makeWhereClause, h2, h3]⟩

/-- C10 witness: an empty-string name behaves like an absent name, and a
company map whose maxEmployees is absent cannot hit the range error. -/
theorem C10_witness :
    Company_makeWhereClause ⟨some "", some 3, none⟩ =
      Company_makeWhereClause ⟨none, some 3, none⟩ ∧
    ∃ p, Company_makeWhereClause ⟨some "x", some 3, none⟩ = Except.ok p :=
  ⟨(C10_falsy_as_absent ⟨some "x", some 3, none⟩ ⟨none, none, none⟩).1,
   (C10_falsy_as_absent ⟨some "x", some 3, none⟩
      ⟨none, none, none⟩).2.2.2.2.2 (Or.inr rfl)⟩

/-- Helper: the length of the clause list equals the number of keys. -/
lemma setClauses_length (keys : List String) (t : List (String × String)) :
    (setClauses keys t).length = keys.length := by
  simp [setClauses]

/-- Helper: the i-th clause of `setClauses`. -/
lemma setClauses_getElem? (keys : List String) (t : List (String × String))
    (i : Nat) :
    (setClauses keys t)[i]? = (keys[i]?).map
      (fun k => "\"" ++ colFor t k ++ "\"=$" ++ toString (i + 1)) := by
  simp only [setClauses, List.getElem?_map, List.getElem?_enum]
  cases keys[i]? <;> simp [Function.comp]

/-- Helper: within bounds, the i-th clause quotes the translated column
name of the i-th key and carries placeholder number i+1. -/
lemma setClauses_at (keys : List String) (t : List (String × String))
    (i : Nat) (hi : i < keys.length) :
    (setClauses keys t)[i]? =
      some ("\"" ++ colFor t (keys.getD i "") ++ "\"=$" ++ toString (i + 1)) := by
  rw [setClauses_getElem?, List.getElem?_eq_getElem hi]
  simp [List.getD_eq_getElem?_getD, List.getElem?_eq_getElem hi]

/-- Helper: a value returned by the JS object lookup is a value stored in
the record. -/
lemma jsGet_mem (t : List (String × String)) (k v : String)
    (h : jsGet t k = some v) : ∃ k2, (k2, v) ∈ t := by
  induction t with
  | nil => simp [jsGet] at h
  | cons p rest ih =>
      obtain ⟨k2, v2⟩ := p
      by_cases hk : k2 = k
      · simp only [jsGet, if_pos hk, Option.some.injEq] at h
        exact ⟨k2, by simp [h]⟩
      · simp only [jsGet, if_neg hk] at h
        obtain ⟨k3, hm⟩ := ih h
        exact ⟨k3, by simp [hm]⟩

/-- C5: on a non-empty update map of N fields, `sqlForPartialUpdate`
returns the comma-join of exactly N clauses and the N values in map
order; the i-th clause (0-based) is the quoted translated column of the
i-th field with placeholder number i+1 (so `$1..$N` each occur in exactly
one clause, in insertion order), and the i-th value is the i-th field's
value. -/
theorem C5_setFragment_shape (d : List (String × JSVal))
    (t : List (String × String)) (hne : d ≠ []) :
    sqlForPartialUpdate d t =
      Except.ok (String.intercalate ", " (setClauses (d.map Prod.fst) t),
        d.map Prod.snd) ∧
    (setClauses (d.map Prod.fst) t).length = d.length ∧
    (d.map Prod.snd).length = d.length ∧
    (∀ i, i < d.length →
      (setClauses (d.map Prod.fst) t)[i]? =
        some ("\"" ++ colFor t ((d.map Prod.fst).getD i "") ++ "\"=$" ++
          toString (i + 1)) ∧
      (d.map Prod.snd)[i]? = (d[i]?).map Prod.snd) := by
  refine ⟨?_, ?_, ?_, ?_⟩
  · simp [sqlForPartialUpdate, List.length_eq_zero, hne]
  · simp [setClauses_length]
  · simp
  · intro i hi
    refine ⟨setClauses_at _ _ _ (by simpa using hi), ?_⟩
    simp [List.getElem?_map]

/-- C5 witness: the fragment builder evaluated on a concrete two-field
map. -/
theorem C5_witness :
    sqlForPartialUpdate [("firstName", JSVal.str "test"), ("age", JSVal.num 32)]
      [("firstName", "first_name")] =
      Except.ok (String.intercalate ", "
        (setClauses ["firstName", "age"] [("firstName", "first_name")]),
        [JSVal.str "test", JSVal.num 32]) :=
  (C5_setFragment_shape [("firstName", JSVal.str "test"), ("age", JSVal.num 32)]
    [("firstName", "first_name")] (by decide)).1

/-- C6: `sqlForPartialUpdate` fails exactly on the empty map, with the
"No data" BadRequestError, and never fails otherwise (it performs no
validation of the values). -/
theorem C6_emptyInput_iff (d : List (String × JSVal))
    (t : List (String × String)) :
    ((∃ e, sqlForPartialUpdate d t = Except.error e) ↔ d = []) ∧
    sqlForPartialUpdate [] t = Except.error "No data" := by
  constructor
  · cases d <;> simp [sqlForPartialUpdate]
  · rfl

/-- C9: under the repo's translation tables (whose physical names are all
non-empty), a field missing from the table keeps its logical name
verbatim, a field present in the table is replaced by the table's
physical column name, and the i-th clause quotes exactly that resolved
name. -/
theorem C9_translation_table (t : List (String × String))
    (ht : ∀ p ∈ t, p.2 ≠ "") (k : String) :
    (jsGet t k = none → colFor t k = k) ∧
    (∀ col, jsGet t k = some col → colFor t k = col) ∧
    (∀ keys i, i < keys.length →
      (setClauses keys t)[i]? =
        some ("\"" ++ colFor t (keys.getD i "") ++ "\"=$" ++
          toString (i + 1))) := by
  refine ⟨?_, ?_, ?_⟩
  · intro h; simp [colFor, h]
  · intro col h
    have hne : col ≠ "" := by
      obtain ⟨k2, hm⟩ := jsGet_mem t k col h
      exact ht (k2, col) hm
    simp [colFor, h, hne]
  · intro keys i hi
    exact setClauses_at keys t i hi

/-- C9 witness: the company translation table, evaluated at a miss
("firstName" stays verbatim), a hit ("numEmployees" becomes
"num_employees"), and a concrete clause. -/
theorem C9_witness :
    colFor [("numEmployees", "num_employees"), ("logoUrl", "logo_url")]
      "firstName" = "firstName" ∧
    colFor [("numEmployees", "num_employees"), ("logoUrl", "logo_url")]
      "numEmployees" = "num_employees" ∧
    (setClauses ["numEmployees", "age"]
      [("numEmployees", "num_employees"), ("logoUrl", "logo_url")])[1]? =
      some ("\"" ++ colFor [("numEmployees", "num_employees"),
        ("logoUrl", "logo_url")] (["numEmployees", "age"].getD 1 "") ++
        "\"=$" ++ toString (1 + 1)) :=
  ⟨(C9_translation_table [("numEmployees", "num_employees"),
      ("logoUrl", "logo_url")] (by decide) "firstName").1 rfl,
   (C9_translation_table [("numEmployees", "num_employees"),
      ("logoUrl", "logo_url")] (by decide) "numEmployees").2.1
      "num_employees" rfl,
   (C9_translation_table [("numEmployees", "num_employees"),
      ("logoUrl", "logo_url")] (by decide) "age").2.2
      ["numEmployees", "age"] 1 (by decide)⟩

/-- C8: `hasEquity` is tri-state in `Job._makeWhereClause`: exactly the
string "true" appends the non-parameterized clause `equity > 0.0` (no
bound value consumed, no `$` placeholder in the clause), while "false"
or absence appends only the non-restrictive tautology `1=1`; in all
three cases the bound-value list is the same base list. Concretely,
`{minSalary: 1000, hasEquity: "true"}` gives two clauses and the single
bound value `$1 = 1000`. -/
theorem C8_hasEquity_tristate (jf : JobFilter) :
    Job_whereParts { jf with hasEquity := none } =
      ((Job_whereBase jf).1 ++ ["1=1"], (Job_whereBase jf).2) ∧
    Job_whereParts { jf with hasEquity := some "false" } =
      ((Job_whereBase jf).1 ++ ["1=1"], (Job_whereBase jf).2) ∧
    Job_whereParts { jf with hasEquity := some "true" } =
      ((Job_whereBase jf).1 ++ ["equity > 0.0"], (Job_whereBase jf).2) ∧
    "equity > 0.0".data.contains '$' = false ∧
    Job_makeWhereClause ⟨none, some 1000, some "true"⟩ =
      ("salary >= $1 AND equity > 0.0", [JSVal.num 1000]) ∧
    (Job_whereParts ⟨none, some 1000, some "true"⟩).1.length = 2 :=
  ⟨rfl, rfl, rfl, by decide, rfl, rfl⟩
